import Mathlib

/-!
Verification of the hyperparameter-search / cross-validation orchestration
implemented in `para_mlp/train.py`.

The development shallowly embeds the functions of `train.py`
(`make_param_grid`, the selection loop of `cross_validate`, the weighting
and path-selection logic of `train_and_eval`) as Lean definitions.
Python floats are modelled as rationals, numpy vectors as lists of
rationals, and fallible library calls as `Except`.  Helper functions of
`para_mlp.utils` that are not part of the source tree (`rmse`, `average`)
are modelled from the specification and marked as such in their doc
comments.  Model training itself (the external `RILRM` collaborator) is
abstracted: a grid candidate is represented by the per-fold combined RMSE
scores that training produces, which is exactly the data the selection
logic of `cross_validate` consumes.
-/

/-- The run configuration fields consumed by `train.py` (`para_mlp.config.Config`).
Floats are modelled as rationals, the integer search bounds as integers. -/
structure Config where
  cutoff_radius_min : ℚ
  cutoff_radius_max : ℚ
  gaussian_params2_num_min : ℤ
  gaussian_params2_num_max : ℤ
  alpha : List ℚ
  n_splits : ℕ
  energy_weight : ℚ
  force_weight : ℚ
  high_energy_weights : List ℚ
  use_force : Bool
deriving DecidableEq

/-- Python `int()` applied to a rational: truncation toward zero. -/
def pyInt (q : ℚ) : ℤ := if 0 ≤ q then ⌊q⌋ else ⌈q⌉

/-- `numpy.linspace(start, stop, num)` with the default `endpoint=True`:
`num` evenly spaced values from `start` to `stop` inclusive. -/
def linspace (start stop : ℚ) : ℕ → List ℚ
  | 0 => []
  | 1 => [start]
  | n + 2 =>
    (List.range (n + 2)).map
      (fun i : ℕ => start + (stop - start) * (i : ℚ) / ((n : ℚ) + 1))

/-- `numpy.arange(lo, hi, 5)` on integers: `lo, lo + 5, ...`, strictly below `hi`. -/
def arange5 (lo hi : ℤ) : List ℤ :=
  (List.range ((hi - lo + 4).toNat / 5)).map (fun k : ℕ => lo + 5 * (k : ℤ))

/-- The candidate count of the radius dimension in `make_param_grid`
(`train.py` line 37): `int((cutoff_radius_max - cutoff_radius_min) / 2.0) + 1`. -/
def cutoffRadiusNum (cfg : Config) : ℤ :=
  pyInt ((cfg.cutoff_radius_max - cfg.cutoff_radius_min) / 2) + 1

/-- The parameter grid returned by `make_param_grid`: one finite candidate
list per search dimension, in the dict insertion order of `train.py`
lines 55-59 (`cutoff_radius`, `gaussian_params2_num`, `alpha`). -/
structure ParamGrid where
  cutoff_radius : List ℚ
  gaussian_params2_num : List ℤ
  alpha : List ℚ
deriving DecidableEq

/-- `make_param_grid` (`train.py` lines 27-61).  `numpy.linspace` raises a
`ValueError` when the requested sample count is negative, which is the only
failure of this function; it is reflected in the `Except`. -/
def makeParamGrid (cfg : Config) : Except String ParamGrid :=
  if cutoffRadiusNum cfg < 0 then
    Except.error "ValueError: Number of samples must be non-negative"
  else
    Except.ok
      { cutoff_radius :=
          linspace cfg.cutoff_radius_min cfg.cutoff_radius_max (cutoffRadiusNum cfg).toNat
        gaussian_params2_num :=
          arange5 cfg.gaussian_params2_num_min (cfg.gaussian_params2_num_max + 5)
        alpha := cfg.alpha }

/-- The dimensions of the grid in dict order, with their candidate counts:
the view of `param_grid.values()` used at `train.py` line 287. -/
def gridDims (g : ParamGrid) : List (String × ℕ) :=
  [("cutoff_radius", g.cutoff_radius.length),
   ("gaussian_params2_num", g.gaussian_params2_num.length),
   ("alpha", g.alpha.length)]

/-- `dont_cross_validate = all([len(val) == 1 for val in param_grid.values()])`
(`train.py` line 287). -/
def dontCrossValidate (g : ParamGrid) : Bool :=
  (gridDims g).all (fun d => d.2 == 1)

/-- Which branch `train_and_eval` takes at `train.py` lines 288-299. -/
inductive TrainPath where
  | fastPath : TrainPath
  | cvPath : TrainPath
deriving DecidableEq

/-- The path-selection fragment of `train_and_eval` (`train.py` lines 286-299):
build the grid, then construct the single candidate directly when every
dimension is a singleton, otherwise invoke `cross_validate`. -/
def trainAndEvalPath (cfg : Config) : Except String TrainPath :=
  match makeParamGrid cfg with
  | Except.error e => Except.error e
  | Except.ok g =>
    if dontCrossValidate g then Except.ok TrainPath.fastPath
    else Except.ok TrainPath.cvPath

/-- The guard of the high-energy override path in `train_and_eval`
(`train.py` line 268): `(n_high_energy_structure != 1) or
(config.high_energy_weights[0] != 1.0)`.  Python `or` short-circuits, so
the subscript is only reached when the length is exactly 1; `headD` is
therefore an exact embedding. -/
def overridePathRuns (ws : List ℚ) : Bool :=
  decide (ws.length ≠ 1) || decide (ws.headD 0 ≠ 1)

/-- The dataset-level weighting step of `train_and_eval`
(`train.py` lines 260-264): scale the first `n` entries (the energy block)
by `energy_weight` unless it is 1.0, then the rest (the force block) by
`force_weight` unless it is 1.0, in place. -/
def applyDatasetWeights (energy_weight force_weight : ℚ) (n : ℕ) (target : List ℚ) :
    List ℚ :=
  let t1 :=
    if energy_weight ≠ 1 then (target.take n).map (fun x => x * energy_weight) ++ target.drop n
    else target
  if force_weight ≠ 1 then t1.take n ++ (t1.drop n).map (fun x => x * force_weight)
  else t1

/-- `force_id_unit = (kfold_dataset["target"].shape[0] // n_structure) - 1`
(`train.py` lines 118 and 257): a plain floor division with no shape check. -/
def deriveForceIdUnit (targetLen nStructure : ℕ) : ℕ :=
  targetLen / nStructure - 1

/-- The initial value of `retained_model_rmse` (`train.py` line 121): `1e10`. -/
def sentinel : ℚ := 10000000000

/-- Modelled from the spec: `para_mlp.utils.average` is not under `src/`;
the spec aggregates fold scores by their arithmetic mean. -/
def average (l : List ℚ) : ℚ := l.sum / (l.length : ℚ)

/-- `statistics.stdev` (`train.py` line 183) requires at least two data
points and raises `StatisticsError` otherwise; on success the (squared)
sample deviation is well defined.  The returned value is only logged by
`cross_validate`, so the sample variance stands in for the standard
deviation and only the definedness condition matters. -/
def stdevCheck (l : List ℚ) : Except String ℚ :=
  if l.length < 2 then
    Except.error "statistics.StatisticsError: stdev requires at least two data points"
  else
    Except.ok (((l.map (fun x => (x - average l) ^ 2)).sum) / ((l.length : ℚ) - 1))

/-- `sklearn.model_selection.KFold(n_splits=..., shuffle=True, random_state=0)`
(`train.py` line 145): the constructor raises a `ValueError` when
`n_splits < 2`, and `split` raises when there are fewer samples than splits. -/
def kFoldCheck (nSplits nSamples : ℕ) : Except String Unit :=
  if nSplits < 2 then
    Except.error "ValueError: k-fold cross-validation requires at least one train/test split by setting n_splits=2 or more"
  else if nSamples < nSplits then
    Except.error "ValueError: Cannot have number of splits greater than the number of samples"
  else Except.ok ()

/-- One iteration of the candidate loop of `cross_validate`
(`train.py` lines 123-227), abstracting the external model training by the
per-fold combined RMSE scores `foldScores` it produces.  In source order:
the `KFold` construction (line 145), the fold loop producing the scores,
their mean (line 182) and sample standard deviation (line 183), the strict
comparison and retention (lines 218-223), and the debug logging of
`retained_model_params` (line 226), which raises a `NameError` when no
candidate has been retained yet. -/
def cvCandidateStep (nSplits nStructures : ℕ) (foldScores : List ℚ) (best : ℚ)
    (ret : Option ℕ) (idx : ℕ) : Except String (ℚ × Option ℕ) :=
  match kFoldCheck nSplits nStructures with
  | Except.error e => Except.error e
  | Except.ok _ =>
    match stdevCheck foldScores with
    | Except.error e => Except.error e
    | Except.ok _ =>
      if average foldScores < best then Except.ok (average foldScores, some idx)
      else
        match ret with
        | none => Except.error "NameError: name retained_model_params is not defined"
        | some r => Except.ok (best, some r)

/-- The candidate loop of `cross_validate` over the remaining grid, carrying
the best mean RMSE so far, the index of the retained candidate (if any) and
the index of the next candidate.  After the loop, `cross_validate` logs
`retained_model_params` (line 230) and returns `retained_model` (line 236);
when the grid left both unassigned this raises a `NameError`. -/
def cvRunAux (nSplits nStructures : ℕ) :
    List (List ℚ) → ℚ → Option ℕ → ℕ → Except String (ℕ × ℚ)
  | [], _, none, _ =>
    Except.error "NameError: name retained_model_params is not defined"
  | [], best, some r, _ => Except.ok (r, best)
  | fs :: rest, best, ret, idx =>
    match cvCandidateStep nSplits nStructures fs best ret idx with
    | Except.error e => Except.error e
    | Except.ok (b, r) => cvRunAux nSplits nStructures rest b r (idx + 1)

/-- `cross_validate` (`train.py` lines 97-236) at the level of its selection
behaviour: each grid candidate is given by the per-fold combined RMSE
scores its training produces; the result is the index of the retained
candidate together with its mean score. -/
def crossValidateRun (nSplits nStructures : ℕ) (grid : List (List ℚ)) :
    Except String (ℕ × ℚ) :=
  cvRunAux nSplits nStructures grid sentinel none 0

/-- Mean combined-target RMSE of candidate `j` of a grid. -/
def gridMean (grid : List (List ℚ)) (j : ℕ) : ℚ := average (grid.getD j [])

/-- Modelled from the spec: `para_mlp.utils.rmse` is not under `src/`; the
spec glossary defines RMSE as the root-mean-square error between predicted
and expected values over a row set. -/
noncomputable def rmse (yPredict yExpected : List ℚ) : ℝ :=
  Real.sqrt
    ((((List.zip yPredict yExpected).map
        (fun p => ((p.1 : ℝ) - (p.2 : ℝ)) ^ 2)).sum) / (yPredict.length : ℝ))

/-- Numpy fancy indexing `v[ids]`: select the rows of `v` named by `ids`. -/
def selectIds (v : List ℚ) (ids : List ℕ) : List ℚ :=
  ids.map (fun i => v.getD i 0)

/-- Numpy elementwise division of a vector by a scalar. -/
def divEach (v : List ℚ) (c : ℚ) : List ℚ := v.map (fun x => x / c)

/-- The per-fold energy-block score of `cross_validate` (`train.py`
lines 166-173): `rmse(y_predict[yids_energy] / n_atoms,
target[yids_energy] / n_atoms) * 1e3`. -/
noncomputable def cvEnergyScore (yPredict target : List ℚ) (yidsEnergy : List ℕ)
    (nAtoms : ℚ) : ℝ :=
  rmse (divEach (selectIds yPredict yidsEnergy) nAtoms)
    (divEach (selectIds target yidsEnergy) nAtoms) * 1000

/-- The pool energy score of `train_and_eval` (`train.py` lines 319-336 for
the k-fold pool and 347-362 for the test pool): the first `energy_id_end`
rows of prediction and target are divided by `n_atoms_in_structure` and
their RMSE is scaled by `1e3`. -/
noncomputable def tevalEnergyScore (yPredict target : List ℚ) (energyIdEnd : ℕ)
    (nAtoms : ℚ) : ℝ :=
  rmse (divEach (yPredict.take energyIdEnd) nAtoms)
    (divEach (target.take energyIdEnd) nAtoms) * 1000

/-- A Python runtime value stored in one attribute cell of the heap model:
the feature matrix (or `None` after release), a coefficient vector, a
scaler or a hyperparameter dict. -/
inductive PyVal where
  | vNone : PyVal
  | vMat : List (List ℚ) → PyVal
  | vVec : List ℚ → PyVal
  | vParams : List (String × ℚ) → PyVal
deriving DecidableEq

/-- An explicit heap: a partial map from cell addresses to values together
with the next fresh address.  Used to state aliasing properties of
`copy.deepcopy` that value semantics alone cannot express. -/
structure Store where
  mem : ℕ → Option PyVal
  next : ℕ

/-- Read a heap cell. -/
def Store.read (s : Store) (i : ℕ) : Option PyVal := s.mem i

/-- Allocate a fresh cell holding `v` and return its address. -/
def Store.alloc (s : Store) (v : PyVal) : Store × ℕ :=
  ({ mem := fun j => if j = s.next then some v else s.mem j, next := s.next + 1 },
   s.next)

/-- Overwrite an existing cell. -/
def Store.write (s : Store) (i : ℕ) (v : PyVal) : Store :=
  { s with mem := fun j => if j = i then some v else s.mem j }

/-- The mutable attributes of a `para_mlp.model.RILRM` instance relevant to
the retention step, as heap cell addresses: the feature matrix `x`, the
fitted coefficients and the scaler. -/
structure RILRM where
  xCell : ℕ
  coeffsCell : ℕ
  scalerCell : ℕ
deriving DecidableEq

/-- `copy.deepcopy(test_model)` (`train.py` line 220), modelled by the
documented semantics of Python deep copy: every attribute of the copy
lives in a freshly allocated cell whose content is the value the source
attribute holds at copy time. -/
def deepcopyRILRM (s : Store) (m : RILRM) : Store × RILRM :=
  let px := s.alloc ((s.read m.xCell).getD PyVal.vNone)
  let pc := px.1.alloc ((s.read m.coeffsCell).getD PyVal.vNone)
  let ps := pc.1.alloc ((s.read m.scalerCell).getD PyVal.vNone)
  (ps.1, { xCell := px.2, coeffsCell := pc.2, scalerCell := ps.2 })

/-- The retention step of `cross_validate` (`train.py` lines 220-223):
`retained_model = copy.deepcopy(test_model)`,
`retained_model_params = copy.deepcopy(hyper_params)`,
`retained_model.x = None`.  Returns the new heap, the snapshot model and
the cell of the copied hyperparameters. -/
def retainSnapshot (s : Store) (m : RILRM) (hpCell : ℕ) : Store × RILRM × ℕ :=
  let pm := deepcopyRILRM s m
  let ph := pm.1.alloc ((pm.1.read hpCell).getD PyVal.vNone)
  (ph.1.write pm.2.xCell PyVal.vNone, pm.2, ph.2)

lemma take_scaled_block (t : List ℚ) (n : ℕ) (f : ℚ → ℚ) :
    ((t.take n).map f ++ t.drop n).take n = (t.take n).map f := by
  rw [List.take_append_eq_append_take]
  have hlen : ((t.take n).map f).length ≤ n := by
    rw [List.length_map, List.length_take]
    exact Nat.min_le_left _ _
  rw [List.take_of_length_le hlen]
  have hnil : (t.drop n).take (n - ((t.take n).map f).length) = [] := by
    rcases Nat.le_total n t.length with h | h
    · have h0 : n - ((t.take n).map f).length = 0 := by
        rw [List.length_map, List.length_take]
        omega
      rw [h0, List.take_zero]
    · rw [List.drop_eq_nil_of_le h, List.take_nil]
  rw [hnil, List.append_nil]

lemma drop_scaled_block (t : List ℚ) (n : ℕ) (f : ℚ → ℚ) :
    ((t.take n).map f ++ t.drop n).drop n = t.drop n := by
  rw [List.drop_append_eq_append_drop]
  have hlen : ((t.take n).map f).length ≤ n := by
    rw [List.length_map, List.length_take]
    exact Nat.min_le_left _ _
  rw [List.drop_eq_nil_of_le hlen, List.nil_append]
  rcases Nat.le_total n t.length with h | h
  · have h0 : n - ((t.take n).map f).length = 0 := by
      rw [List.length_map, List.length_take]
      omega
    rw [h0, List.drop_zero]
  · rw [List.drop_eq_nil_of_le h, List.drop_nil]

/-- C6: the dataset-level weighting of `train_and_eval` is the identity on
the k-fold target vector when both weights are 1.0; in general it scales
exactly the energy block (the first `n` entries) by `energy_weight` when
that weight differs from 1.0, and exactly the force block (the rest) by
`force_weight` when that weight differs from 1.0. -/
theorem dataset_weighting_identity_and_blocks :
    ∀ (n : ℕ) (t : List ℚ) (ew fw : ℚ),
      applyDatasetWeights 1 1 n t = t ∧
      applyDatasetWeights ew fw n t =
        (if ew = 1 then t.take n else (t.take n).map (fun x => x * ew)) ++
        (if fw = 1 then t.drop n else (t.drop n).map (fun x => x * fw)) := by
  intro n t ew fw
  constructor
  · simp [applyDatasetWeights]
  · by_cases hew : ew = 1
    · by_cases hfw : fw = 1
      · subst hew; subst hfw
        simp [applyDatasetWeights]
      · subst hew
        simp [applyDatasetWeights, hfw]
    · by_cases hfw : fw = 1
      · subst hfw
        simp [applyDatasetWeights, hew]
      · simp only [applyDatasetWeights, ne_eq, hew, hfw, not_false_eq_true,
          if_true, ite_true]
        rw [take_scaled_block, drop_scaled_block]
        simp

/-- Witness for C6 at a concrete input. -/
theorem dataset_weighting_identity_and_blocks_witness :
    applyDatasetWeights 1 1 2 [3, 4, 5] = [3, 4, 5] :=
  (dataset_weighting_identity_and_blocks 2 [3, 4, 5] 1 1).1

/-- C5: the high-energy override path of `train_and_eval` is skipped
exactly when the configured weight list is the single scalar 1.0; with
several groups it runs even when every scalar is 1.0. -/
theorem override_path_skip_iff :
    (∀ ws : List ℚ, overridePathRuns ws = false ↔ ws = [1]) ∧
    overridePathRuns [1, 1] = true := by
  constructor
  · intro ws
    match ws with
    | [] => simp [overridePathRuns]
    | [w] => simp [overridePathRuns]
    | a :: b :: rest => simp [overridePathRuns]
  · decide

/-- Witness for C5 at a concrete input. -/
theorem override_path_skip_iff_witness :
    overridePathRuns [1] = false :=
  (override_path_skip_iff.1 [1]).mpr rfl

/-- C8: at a dataset with 2 structures and a target vector of length 5 —
a length that is not a multiple of the structure count — the code derives
`force_id_unit = 5 // 2 - 1 = 1` by silent floor division and proceeds;
the implied consistent row count `2 * (1 + 1) = 4` does not match the
actual length 5, and no validation rejects the dataset. -/
theorem force_id_unit_no_shape_check :
    deriveForceIdUnit 5 2 = 1 ∧ 2 * (deriveForceIdUnit 5 2 + 1) ≠ 5 ∧ 5 % 2 ≠ 0 := by
  decide

lemma cvCandidateStep_ok (ns nst : ℕ) (fs : List ℚ) (best : ℚ) (ret : Option ℕ)
    (idx : ℕ) (b : ℚ) (r : Option ℕ)
    (h : cvCandidateStep ns nst fs best ret idx = Except.ok (b, r)) :
    (average fs < best ∧ b = average fs ∧ r = some idx) ∨
    (¬ average fs < best ∧ b = best ∧ r = ret ∧ ∃ r0, ret = some r0) := by
  unfold cvCandidateStep at h
  cases hk : kFoldCheck ns nst with
  | error e => rw [hk] at h; simp at h
  | ok u =>
    rw [hk] at h
    cases hs : stdevCheck fs with
    | error e => rw [hs] at h; simp at h
    | ok v =>
      rw [hs] at h
      by_cases hlt : average fs < best
      · rw [if_pos hlt] at h
        simp only [Except.ok.injEq, Prod.mk.injEq] at h
        exact Or.inl ⟨hlt, h.1.symm, h.2.symm⟩
      · rw [if_neg hlt] at h
        cases ret with
        | none => simp at h
        | some r0 =>
          simp only [Except.ok.injEq, Prod.mk.injEq] at h
          exact Or.inr ⟨hlt, h.1.symm, h.2.symm, r0, rfl⟩

lemma cvRunAux_ok_spec (ns nst : ℕ) (l : List (List ℚ)) :
    ∀ (best : ℚ) (ret : Option ℕ) (idx i : ℕ) (m : ℚ),
      cvRunAux ns nst l best ret idx = Except.ok (i, m) →
      ((ret = some i ∧ m = best ∧ ∀ k, k < l.length → ¬ gridMean l k < best) ∨
       (∃ k, k < l.length ∧ i = idx + k ∧ m = gridMean l k ∧ m < best ∧
         (∀ j, j < k → m < gridMean l j) ∧
         (∀ j, k < j → j < l.length → m ≤ gridMean l j))) := by
  induction l with
  | nil =>
    intro best ret idx i m h
    cases ret with
    | none => simp [cvRunAux] at h
    | some r =>
      left
      simp only [cvRunAux, Except.ok.injEq, Prod.mk.injEq] at h
      refine ⟨by rw [h.1], h.2.symm, ?_⟩
      intro k hk
      simp at hk
  | cons fs rest ih =>
    intro best ret idx i m h
    simp only [cvRunAux] at h
    cases hc : cvCandidateStep ns nst fs best ret idx with
    | error e => rw [hc] at h; simp at h
    | ok p =>
      obtain ⟨b, r⟩ := p
      rw [hc] at h
      have hrec : cvRunAux ns nst rest b r (idx + 1) = Except.ok (i, m) := h
      rcases cvCandidateStep_ok ns nst fs best ret idx b r hc with
        ⟨hlt, hb, hr⟩ | ⟨hnlt, hb, hr, r0, hret⟩
      · subst hb; subst hr
        rcases ih (average fs) (some idx) (idx + 1) i m hrec with
          ⟨hsi, hmb, hall⟩ | ⟨k, hk, hik, hmk, hmb, hbef, haft⟩
        · right
          have hidx : i = idx := (Option.some.injEq _ _ ▸ hsi).symm
          refine ⟨0, by simp, by omega, ?_, ?_, ?_, ?_⟩
          · rw [hmb]; simp [gridMean]
          · rw [hmb]; exact hlt
          · intro j hj; omega
          · intro j hj0 hjlen
            obtain ⟨j1, rfl⟩ : ∃ j1, j = j1 + 1 := ⟨j - 1, by omega⟩
            have hj1 : j1 < rest.length := by simpa using hjlen
            have := hall j1 hj1
            have hle : average fs ≤ gridMean rest j1 := not_lt.mp this
            rw [hmb]
            simpa [gridMean] using hle
        · right
          refine ⟨k + 1, by simpa using hk, by omega, ?_, ?_, ?_, ?_⟩
          · simpa [gridMean] using hmk
          · exact lt_trans hmb hlt
          · intro j hj
            cases j with
            | zero =>
              have : m < average fs := hmb
              simpa [gridMean] using this
            | succ j1 =>
              have := hbef j1 (by omega)
              simpa [gridMean] using this
          · intro j hj hjlen
            obtain ⟨j1, rfl⟩ : ∃ j1, j = j1 + 1 := ⟨j - 1, by omega⟩
            have := haft j1 (by omega) (by simpa using hjlen)
            simpa [gridMean] using this
      · rw [hb, hr, hret] at hrec
        rcases ih best (some r0) (idx + 1) i m hrec with
          ⟨hsi, hmb, hall⟩ | ⟨k, hk, hik, hmk, hmb, hbef, haft⟩
        · left
          refine ⟨by rw [hret, hsi], hmb, ?_⟩
          intro k hk
          cases k with
          | zero => simpa [gridMean] using hnlt
          | succ k1 =>
            have := hall k1 (by simpa using hk)
            simpa [gridMean] using this
        · right
          refine ⟨k + 1, by simpa using hk, by omega, ?_, hmb, ?_, ?_⟩
          · simpa [gridMean] using hmk
          · intro j hj
            cases j with
            | zero =>
              have hle : best ≤ average fs := not_lt.mp hnlt
              have : m < average fs := lt_of_lt_of_le hmb hle
              simpa [gridMean] using this
            | succ j1 =>
              have := hbef j1 (by omega)
              simpa [gridMean] using this
          · intro j hj hjlen
            obtain ⟨j1, rfl⟩ : ∃ j1, j = j1 + 1 := ⟨j - 1, by omega⟩
            have := haft j1 (by omega) (by simpa using hjlen)
            simpa [gridMean] using this

/-- C1: the retained result of `cross_validate` changes only on strict
improvement of the mean combined-target RMSE, so the returned candidate is
the earliest one attaining the minimum mean score: every earlier candidate
has a strictly larger mean and no candidate has a smaller one.  On the
mean-score sequence 5, 6, 4, 4 the candidate of the first 4 (index 2) is
returned. -/
theorem cross_validate_retains_first_strict_minimum :
    (∀ ns nst grid i m, crossValidateRun ns nst grid = Except.ok (i, m) →
      i < grid.length ∧ m = gridMean grid i ∧
      (∀ j, j < i → m < gridMean grid j) ∧
      (∀ j, j < grid.length → m ≤ gridMean grid j)) ∧
    crossValidateRun 2 4 [[5, 5], [6, 6], [4, 4], [4, 4]] = Except.ok (2, 4) := by
  constructor
  · intro ns nst grid i m h
    rcases cvRunAux_ok_spec ns nst grid sentinel none 0 i m h with
      ⟨hsi, _, _⟩ | ⟨k, hk, hik, hmk, _, hbef, haft⟩
    · cases hsi
    · have hik0 : i = k := by omega
      subst hik0
      refine ⟨hk, hmk, ?_, ?_⟩
      · intro j hj
        exact hbef j hj
      · intro j hj
        rcases lt_trichotomy j i with hlt | he | hgt
        · exact le_of_lt (hbef j hlt)
        · rw [he]
          exact le_of_eq hmk
        · exact haft j hgt hj
  · norm_num [crossValidateRun, cvRunAux, cvCandidateStep, kFoldCheck, stdevCheck,
      average, sentinel]

/-- Witness for C1: the grid with mean scores 5, 6, 4, 4 evaluates to the
candidate at index 2 with mean 4, which is the first strict minimum. -/
theorem cross_validate_retains_first_strict_minimum_witness :
    2 < ([[5, 5], [6, 6], [4, 4], [4, 4]] : List (List ℚ)).length ∧
    (4 : ℚ) = gridMean [[5, 5], [6, 6], [4, 4], [4, 4]] 2 :=
  ⟨(cross_validate_retains_first_strict_minimum.1 2 4 _ 2 4
      (by norm_num [crossValidateRun, cvRunAux, cvCandidateStep, kFoldCheck, stdevCheck,
        average, sentinel])).1,
   (cross_validate_retains_first_strict_minimum.1 2 4 _ 2 4
      (by norm_num [crossValidateRun, cvRunAux, cvCandidateStep, kFoldCheck, stdevCheck,
        average, sentinel])).2.1⟩

/-- C7: with a fold count below 2 the search fails instead of producing a
result, whatever the dataset size and the grid: either the grid is empty
(failing on the unassigned retained result) or the first candidate already
fails when the k-fold splitter is constructed, before any fold statistics
are aggregated. -/
theorem n_splits_lt_two_fails :
    ∀ ns, ns < 2 → ∀ nst grid, ∃ msg, crossValidateRun ns nst grid = Except.error msg := by
  intro ns hns nst grid
  cases grid with
  | nil => exact ⟨_, rfl⟩
  | cons fs rest =>
    refine ⟨"ValueError: k-fold cross-validation requires at least one train/test split by setting n_splits=2 or more", ?_⟩
    simp [crossValidateRun, cvRunAux, cvCandidateStep, kFoldCheck, if_pos hns]

/-- Witness for C7 at the concrete fold count 1. -/
theorem n_splits_lt_two_fails_witness :
    ∃ msg, crossValidateRun 1 4 [[3, 3]] = Except.error msg :=
  n_splits_lt_two_fails 1 (by decide) 4 [[3, 3]]

/-- C10: `cross_validate` returns a model only when the grid is non-empty
and some candidate has a mean combined RMSE strictly below the sentinel
1e10.  When no candidate beats the sentinel the function fails with the
unbound-variable error on `retained_model_params` — not with a
configuration error: the empty grid produces that `NameError`
unconditionally, and a non-empty no-beat grid produces it whenever the
run is otherwise well configured (a valid fold count for the dataset and
at least two fold scores per candidate, so that the k-fold and
standard-deviation checks pass). -/
theorem cross_validate_sentinel_unbound_error :
    (∀ ns nst grid i m, crossValidateRun ns nst grid = Except.ok (i, m) →
      grid ≠ [] ∧ ∃ fs ∈ grid, average fs < sentinel) ∧
    (∀ ns nst, crossValidateRun ns nst [] =
      Except.error "NameError: name retained_model_params is not defined") ∧
    (∀ ns nst grid, 2 ≤ ns → ns ≤ nst → (∀ fs ∈ grid, 2 ≤ fs.length) →
      (∀ fs ∈ grid, ¬ average fs < sentinel) →
      crossValidateRun ns nst grid =
        Except.error "NameError: name retained_model_params is not defined") := by
  refine ⟨?_, ?_, ?_⟩
  · intro ns nst grid i m h
    rcases cvRunAux_ok_spec ns nst grid sentinel none 0 i m h with
      ⟨hsi, _, _⟩ | ⟨k, hk, _, hmk, hmb, _, _⟩
    · cases hsi
    · constructor
      · intro hnil
        rw [hnil] at hk
        simp at hk
      · refine ⟨grid.getD k [], ?_, ?_⟩
        · have hget : grid.getD k [] = grid.get ⟨k, hk⟩ := by
            simp [List.getD_eq_getElem?_getD, List.getElem?_eq_getElem hk]
          rw [hget]
          exact List.get_mem grid k hk
        · have h2 : gridMean grid k < sentinel := by
            rw [← hmk]
            exact hmb
          exact h2
  · intro ns nst
    rfl
  · intro ns nst grid hns hnst hlen hall
    cases grid with
    | nil => rfl
    | cons fs rest =>
      have hkf : kFoldCheck ns nst = Except.ok () := by
        unfold kFoldCheck
        rw [if_neg (by omega), if_neg (by omega)]
      have hfl : 2 ≤ fs.length := hlen fs (List.mem_cons_self fs rest)
      have hsd : stdevCheck fs =
          Except.ok (((fs.map (fun x => (x - average fs) ^ 2)).sum) /
            ((fs.length : ℚ) - 1)) := by
        unfold stdevCheck
        rw [if_neg (by omega)]
      have hnlt : ¬ average fs < sentinel :=
        hall fs (List.mem_cons_self fs rest)
      show cvRunAux ns nst (fs :: rest) sentinel none 0 =
        Except.error "NameError: name retained_model_params is not defined"
      simp only [cvRunAux, cvCandidateStep, hkf, hsd, if_neg hnlt]

/-- Witness for C10: a one-candidate grid whose mean beats the sentinel is
non-empty with a sub-sentinel candidate; the empty grid fails with the
`NameError`; and a well-configured run on a grid whose only candidate has
mean equal to the sentinel fails with the same `NameError`, not with a
configuration error. -/
theorem cross_validate_sentinel_unbound_error_witness :
    (([[5, 5]] : List (List ℚ)) ≠ [] ∧ ∃ fs ∈ ([[5, 5]] : List (List ℚ)), average fs < sentinel) ∧
    crossValidateRun 2 4 [] =
      Except.error "NameError: name retained_model_params is not defined" ∧
    crossValidateRun 2 4 [[sentinel, sentinel]] =
      Except.error "NameError: name retained_model_params is not defined" :=
  ⟨cross_validate_sentinel_unbound_error.1 2 4 [[5, 5]] 0 5
     (by norm_num [crossValidateRun, cvRunAux, cvCandidateStep, kFoldCheck, stdevCheck,
       average, sentinel]),
   cross_validate_sentinel_unbound_error.2.1 2 4,
   cross_validate_sentinel_unbound_error.2.2 2 4 [[sentinel, sentinel]]
     (by norm_num) (by norm_num)
     (by
       intro fs hfs
       simp only [List.mem_singleton] at hfs
       subst hfs
       norm_num)
     (by
       intro fs hfs
       simp only [List.mem_singleton] at hfs
       subst hfs
       have havg : average [sentinel, sentinel] = sentinel := by
         simp [average]
       rw [havg]
       exact lt_irrefl sentinel)⟩

lemma makeParamGrid_ok (cfg : Config) (g : ParamGrid)
    (h : makeParamGrid cfg = Except.ok g) :
    ¬ cutoffRadiusNum cfg < 0 ∧
    g = { cutoff_radius :=
            linspace cfg.cutoff_radius_min cfg.cutoff_radius_max (cutoffRadiusNum cfg).toNat
          gaussian_params2_num :=
            arange5 cfg.gaussian_params2_num_min (cfg.gaussian_params2_num_max + 5)
          alpha := cfg.alpha } := by
  by_cases hneg : cutoffRadiusNum cfg < 0
  · unfold makeParamGrid at h
    rw [if_pos hneg] at h
    simp at h
  · unfold makeParamGrid at h
    rw [if_neg hneg] at h
    simp only [Except.ok.injEq] at h
    exact ⟨hneg, h.symm⟩

lemma linspace_length (a b : ℚ) : ∀ n, (linspace a b n).length = n
  | 0 => rfl
  | 1 => rfl
  | n + 2 => by
    show ((List.range (n + 2)).map
      (fun i : ℕ => a + (b - a) * (i : ℚ) / ((n : ℚ) + 1))).length = n + 2
    rw [List.length_map, List.length_range]

lemma linspace_getD (a b : ℚ) (n i : ℕ) (hi : i < n + 2) :
    (linspace a b (n + 2)).getD i 0 = a + (b - a) * (i : ℚ) / ((n : ℚ) + 1) := by
  have h1 : linspace a b (n + 2) =
      (List.range (n + 2)).map
        (fun i : ℕ => a + (b - a) * (i : ℚ) / ((n : ℚ) + 1)) := rfl
  rw [h1, List.getD_eq_getElem?_getD, List.getElem?_map, List.getElem?_range hi]
  rfl

lemma linspace_head (a b : ℚ) (N : ℕ) (h0 : 0 < N) :
    (linspace a b N).getD 0 0 = a := by
  match N, h0 with
  | 1, _ => rfl
  | n + 2, _ =>
    rw [linspace_getD a b n 0 (by omega)]
    simp

lemma linspace_last (a b : ℚ) (N : ℕ) (h2 : 2 ≤ N) :
    (linspace a b N).getD (N - 1) 0 = b := by
  match N, h2 with
  | n + 2, _ =>
    have hstep : n + 2 - 1 = n + 1 := by omega
    rw [hstep, linspace_getD a b n (n + 1) (by omega)]
    have hne : ((n : ℚ) + 1) ≠ 0 := by positivity
    push_cast
    field_simp

lemma linspace_spacing (a b : ℚ) (N i : ℕ) (hi : i + 1 < N) :
    (linspace a b N).getD (i + 1) 0 - (linspace a b N).getD i 0 =
      (b - a) / ((N : ℚ) - 1) := by
  match N, hi with
  | n + 2, _ =>
    rw [linspace_getD a b n (i + 1) (by omega), linspace_getD a b n i (by omega)]
    push_cast
    ring

lemma arange5_mem_iff (lo hi x : ℤ) :
    x ∈ arange5 lo hi ↔ ∃ k : ℕ, x = lo + 5 * (k : ℤ) ∧ x < hi := by
  have h5 : (0 : ℕ) < 5 := by norm_num
  constructor
  · intro hx
    simp only [arange5, List.mem_map, List.mem_range] at hx
    obtain ⟨k, hk, rfl⟩ := hx
    refine ⟨k, rfl, ?_⟩
    have h1 : (k + 1) * 5 ≤ (hi - lo + 4).toNat :=
      (Nat.le_div_iff_mul_le h5).mp (by omega)
    omega
  · rintro ⟨k, rfl, hlt⟩
    simp only [arange5, List.mem_map, List.mem_range]
    refine ⟨k, ?_, rfl⟩
    have h1 : (k + 1) * 5 ≤ (hi - lo + 4).toNat := by omega
    have h2 := (Nat.le_div_iff_mul_le h5).mpr h1
    omega

/-- C2: `train_and_eval` takes the fast path exactly when every dimension
of the grid built by `make_param_grid` has a single candidate, and invokes
`cross_validate` exactly otherwise. -/
theorem train_and_eval_fast_path_iff_singleton_grid :
    ∀ cfg g, makeParamGrid cfg = Except.ok g →
      (trainAndEvalPath cfg = Except.ok TrainPath.fastPath ↔
        (g.cutoff_radius.length = 1 ∧ g.gaussian_params2_num.length = 1 ∧
         g.alpha.length = 1)) ∧
      (trainAndEvalPath cfg = Except.ok TrainPath.cvPath ↔
        ¬ (g.cutoff_radius.length = 1 ∧ g.gaussian_params2_num.length = 1 ∧
           g.alpha.length = 1)) := by
  intro cfg g h
  have hdc : dontCrossValidate g = true ↔
      (g.cutoff_radius.length = 1 ∧ g.gaussian_params2_num.length = 1 ∧
       g.alpha.length = 1) := by
    simp [dontCrossValidate, gridDims]
  have hpath : trainAndEvalPath cfg =
      (if dontCrossValidate g then Except.ok TrainPath.fastPath
       else Except.ok TrainPath.cvPath) := by
    unfold trainAndEvalPath
    rw [h]
  by_cases hb : dontCrossValidate g = true
  · rw [hpath, if_pos hb]
    refine ⟨⟨fun _ => hdc.mp hb, fun _ => rfl⟩,
            ⟨fun hcv => absurd hcv (by simp), fun hn => absurd (hdc.mp hb) hn⟩⟩
  · rw [hpath, if_neg hb]
    refine ⟨⟨fun hf => absurd hf (by simp), fun hc => absurd (hdc.mpr hc) hb⟩,
            ⟨fun _ hc => hb (hdc.mpr hc), fun _ => rfl⟩⟩

/-- A configuration whose three search dimensions each collapse to one
candidate. -/
def cfgSingle : Config :=
  { cutoff_radius_min := 6, cutoff_radius_max := 6,
    gaussian_params2_num_min := 10, gaussian_params2_num_max := 10,
    alpha := [1], n_splits := 10, energy_weight := 1, force_weight := 1,
    high_energy_weights := [1], use_force := false }

lemma cfgSingle_grid :
    makeParamGrid cfgSingle =
      Except.ok { cutoff_radius := [6], gaussian_params2_num := [10], alpha := [1] } := by
  have hnum : cutoffRadiusNum cfgSingle = 1 := by
    norm_num [cutoffRadiusNum, pyInt, cfgSingle]
  have harange : arange5 10 15 = [10] := by
    have h : ((15 : ℤ) - 10 + 4).toNat / 5 = 1 := by decide
    rw [arange5, h]
    norm_num [List.range_succ]
  rw [makeParamGrid, hnum]
  norm_num [cfgSingle, harange, linspace]

/-- Witness for C2: the all-singleton configuration takes the fast path. -/
theorem train_and_eval_fast_path_iff_singleton_grid_witness :
    trainAndEvalPath cfgSingle = Except.ok TrainPath.fastPath :=
  ((train_and_eval_fast_path_iff_singleton_grid cfgSingle
      { cutoff_radius := [6], gaussian_params2_num := [10], alpha := [1] }
      cfgSingle_grid).1).mpr ⟨rfl, rfl, rfl⟩

/-- A configuration with a radius span of 1 (below the linspace step of 2)
and a count-like span of 1 (not a multiple of the arange step 5). -/
def cfgC3 : Config :=
  { cutoff_radius_min := 4, cutoff_radius_max := 5,
    gaussian_params2_num_min := 1, gaussian_params2_num_max := 2,
    alpha := [1 / 10], n_splits := 10, energy_weight := 1, force_weight := 1,
    high_energy_weights := [1], use_force := false }

lemma cfgC3_grid :
    makeParamGrid cfgC3 =
      Except.ok { cutoff_radius := [4], gaussian_params2_num := [1, 6],
                  alpha := [1 / 10] } := by
  have hnum : cutoffRadiusNum cfgC3 = 1 := by
    norm_num [cutoffRadiusNum, pyInt, cfgC3]
  have harange : arange5 1 7 = [1, 6] := by
    have h : ((7 : ℤ) - 1 + 4).toNat / 5 = 2 := by decide
    rw [arange5, h]
    norm_num [List.range_succ]
  rw [makeParamGrid, hnum]
  norm_num [cfgC3, harange, linspace]

/-- C3 fails as stated: for the concrete configuration `cfgC3` the
count-like dimension is `[1, 6]`, whose element 6 exceeds
`gaussian_params2_num_max = 2` (the claim says the dimension is bounded by
that maximum), and the radius dimension is `[4]`, which does not reach
`cutoff_radius_max = 5` (the claim says the candidates run from
`cutoff_radius_min` to `cutoff_radius_max`). -/
theorem make_param_grid_claim_counterexample :
    makeParamGrid cfgC3 =
      Except.ok { cutoff_radius := [4], gaussian_params2_num := [1, 6],
                  alpha := [1 / 10] } ∧
    (6 : ℤ) ∈ ([1, 6] : List ℤ) ∧ cfgC3.gaussian_params2_num_max < 6 ∧
    cfgC3.cutoff_radius_max ∉ ([4] : List ℚ) :=
  ⟨cfgC3_grid, by norm_num, by norm_num [cfgC3], by norm_num [cfgC3]⟩

/-- C3 (amended): for every configuration on which `make_param_grid`
succeeds, the radius dimension has exactly
`int((cutoff_radius_max - cutoff_radius_min) / 2) + 1` candidates, starts
at `cutoff_radius_min`, is evenly spaced with constant step, and ends at
`cutoff_radius_max` whenever it has at least two candidates; the count-like
dimension holds exactly the integers `gaussian_params2_num_min + 5 k`
that are strictly below `gaussian_params2_num_max + 5` (so its last
element may exceed the configured maximum by up to 4); the regularization
dimension is exactly the configured alpha list; and the dimensions appear
in the fixed order cutoff_radius, gaussian_params2_num, alpha. -/
theorem make_param_grid_amended_characterization :
    ∀ cfg g, makeParamGrid cfg = Except.ok g →
      g.cutoff_radius.length = (cutoffRadiusNum cfg).toNat ∧
      (0 < g.cutoff_radius.length →
        g.cutoff_radius.getD 0 0 = cfg.cutoff_radius_min) ∧
      (2 ≤ g.cutoff_radius.length →
        g.cutoff_radius.getD (g.cutoff_radius.length - 1) 0 = cfg.cutoff_radius_max) ∧
      (∀ i, i + 1 < g.cutoff_radius.length →
        g.cutoff_radius.getD (i + 1) 0 - g.cutoff_radius.getD i 0 =
          (cfg.cutoff_radius_max - cfg.cutoff_radius_min) /
            ((g.cutoff_radius.length : ℚ) - 1)) ∧
      (∀ x, x ∈ g.gaussian_params2_num ↔
        ∃ k : ℕ, x = cfg.gaussian_params2_num_min + 5 * (k : ℤ) ∧
          x < cfg.gaussian_params2_num_max + 5) ∧
      g.alpha = cfg.alpha ∧
      (gridDims g).map Prod.fst = ["cutoff_radius", "gaussian_params2_num", "alpha"] := by
  intro cfg g h
  obtain ⟨hneg, rfl⟩ := makeParamGrid_ok cfg g h
  dsimp only
  refine ⟨linspace_length _ _ _, ?_, ?_, ?_, ?_, rfl, rfl⟩
  · intro h0
    rw [linspace_length] at h0
    exact linspace_head _ _ _ h0
  · intro h2
    rw [linspace_length] at h2
    rw [linspace_length]
    exact linspace_last _ _ _ h2
  · intro i hi
    rw [linspace_length] at hi
    rw [linspace_length]
    exact linspace_spacing _ _ _ _ hi
  · intro x
    exact arange5_mem_iff _ _ x

/-- Witness for the amended C3 at the concrete configuration `cfgC3`. -/
theorem make_param_grid_amended_characterization_witness :
    ([4] : List ℚ).length = (cutoffRadiusNum cfgC3).toNat ∧
    ((6 : ℤ) ∈ ([1, 6] : List ℤ) ↔
      ∃ k : ℕ, (6 : ℤ) = cfgC3.gaussian_params2_num_min + 5 * (k : ℤ) ∧
        (6 : ℤ) < cfgC3.gaussian_params2_num_max + 5) :=
  ⟨(make_param_grid_amended_characterization cfgC3 _ cfgC3_grid).1,
   (make_param_grid_amended_characterization cfgC3 _ cfgC3_grid).2.2.2.2.1 6⟩

/-- C4: both reported energy scores — the per-fold energy-block score of
`cross_validate` and the pool score of `train_and_eval` — equal
`rmse(predicted / n_atoms, expected / n_atoms) * 1000` for the selected
predicted/expected pair, and the two sites agree when the fold's energy
row ids are exactly the first `energy_id_end` rows. -/
theorem energy_rmse_formula :
    ∀ (yp t : List ℚ) (ids : List ℕ) (e : ℕ) (n : ℚ),
      cvEnergyScore yp t ids n =
        rmse (divEach (selectIds yp ids) n) (divEach (selectIds t ids) n) * 1000 ∧
      tevalEnergyScore yp t e n =
        rmse (divEach (yp.take e) n) (divEach (t.take e) n) * 1000 ∧
      (e ≤ yp.length → e ≤ t.length →
        cvEnergyScore yp t (List.range e) n = tevalEnergyScore yp t e n) := by
  intro yp t ids e n
  refine ⟨rfl, rfl, ?_⟩
  intro h1 h2
  have hsel : ∀ v : List ℚ, e ≤ v.length → selectIds v (List.range e) = v.take e := by
    intro v hv
    apply List.ext_getElem
    · simp [selectIds, Nat.min_eq_left hv]
    · intro i hi1 hi2
      have hie : i < e := by
        simpa [selectIds] using hi1
      have hiv : i < v.length := by omega
      simp only [selectIds, List.getElem_map, List.getElem_range]
      rw [List.getD_eq_getElem?_getD, List.getElem?_eq_getElem hiv]
      simp [List.getElem_take]
  unfold cvEnergyScore tevalEnergyScore
  rw [hsel yp h1, hsel t h2]

/-- Witness for C4 at a concrete pair of vectors. -/
theorem energy_rmse_formula_witness :
    cvEnergyScore [2] [4] (List.range 1) 2 = tevalEnergyScore [2] [4] 1 2 :=
  (energy_rmse_formula [2] [4] (List.range 1) 1 2).2.2 (by norm_num) (by norm_num)

/-- C9: the retention step deep-copies the candidate model and its
hyperparameters into fresh cells that are disjoint from every cell that
existed before (no shared backing storage), then sets the snapshot's
feature-matrix cell to None; the snapshot's other cells hold exactly the
values the candidate's cells held at copy time, and every pre-existing
cell — the candidate's own cells included — is left untouched. -/
theorem retain_snapshot_deepcopy_independent :
    ∀ (s : Store) (m : RILRM) (hp : ℕ),
      m.xCell < s.next → m.coeffsCell < s.next → m.scalerCell < s.next → hp < s.next →
      (∀ j, j < s.next → (s.read j).isSome) →
      (s.next ≤ (retainSnapshot s m hp).2.1.xCell ∧
       s.next ≤ (retainSnapshot s m hp).2.1.coeffsCell ∧
       s.next ≤ (retainSnapshot s m hp).2.1.scalerCell ∧
       s.next ≤ (retainSnapshot s m hp).2.2 ∧
       (retainSnapshot s m hp).2.1.xCell ≠ (retainSnapshot s m hp).2.1.coeffsCell ∧
       (retainSnapshot s m hp).2.1.xCell ≠ (retainSnapshot s m hp).2.1.scalerCell ∧
       (retainSnapshot s m hp).2.1.coeffsCell ≠ (retainSnapshot s m hp).2.1.scalerCell) ∧
      (retainSnapshot s m hp).1.read (retainSnapshot s m hp).2.1.xCell =
        some PyVal.vNone ∧
      (retainSnapshot s m hp).1.read (retainSnapshot s m hp).2.1.coeffsCell =
        s.read m.coeffsCell ∧
      (retainSnapshot s m hp).1.read (retainSnapshot s m hp).2.1.scalerCell =
        s.read m.scalerCell ∧
      (retainSnapshot s m hp).1.read (retainSnapshot s m hp).2.2 = s.read hp ∧
      (∀ j, j < s.next → (retainSnapshot s m hp).1.read j = s.read j) := by
  intro s m hp h1 h2 h3 h4 hvalid
  obtain ⟨vc, hvc⟩ := Option.isSome_iff_exists.mp (hvalid _ h2)
  obtain ⟨vs2, hvs2⟩ := Option.isSome_iff_exists.mp (hvalid _ h3)
  obtain ⟨vh, hvh⟩ := Option.isSome_iff_exists.mp (hvalid _ h4)
  refine ⟨⟨?_, ?_, ?_, ?_, ?_, ?_, ?_⟩, ?_, ?_, ?_, ?_, ?_⟩
  · show s.next ≤ s.next
    omega
  · show s.next ≤ s.next + 1
    omega
  · show s.next ≤ s.next + 1 + 1
    omega
  · show s.next ≤ s.next + 1 + 1 + 1
    omega
  · show s.next ≠ s.next + 1
    omega
  · show s.next ≠ s.next + 1 + 1
    omega
  · show s.next + 1 ≠ s.next + 1 + 1
    omega
  · simp [retainSnapshot, deepcopyRILRM, Store.alloc, Store.write, Store.read]
  · simp only [retainSnapshot, deepcopyRILRM, Store.alloc, Store.write, Store.read]
    rw [if_neg (by omega), if_neg (by omega), if_neg (by omega)]
    simp only [if_true]
    rw [show s.mem m.coeffsCell = some vc from hvc]
    rfl
  · simp only [retainSnapshot, deepcopyRILRM, Store.alloc, Store.write, Store.read]
    rw [if_neg (by omega), if_neg (by omega)]
    simp only [if_true]
    rw [show s.mem m.scalerCell = some vs2 from hvs2]
    rfl
  · simp only [retainSnapshot, deepcopyRILRM, Store.alloc, Store.write, Store.read]
    rw [if_neg (by omega)]
    simp only [if_true]
    rw [if_neg (by omega), if_neg (by omega), if_neg (by omega)]
    rw [show s.mem hp = some vh from hvh]
    rfl
  · intro j hj
    simp only [retainSnapshot, deepcopyRILRM, Store.alloc, Store.write, Store.read]
    rw [if_neg (by omega), if_neg (by omega), if_neg (by omega), if_neg (by omega),
      if_neg (by omega)]

/-- A concrete four-cell heap: a feature matrix, a coefficient vector, a
scaler placeholder and a hyperparameter dict. -/
def storeC9 : Store :=
  { mem := fun j =>
      if j = 0 then some (PyVal.vMat [[1]])
      else if j = 1 then some (PyVal.vVec [2])
      else if j = 2 then some PyVal.vNone
      else if j = 3 then some (PyVal.vParams [("alpha", 1)])
      else none,
    next := 4 }

/-- The candidate model living in the first three cells of `storeC9`. -/
def modelC9 : RILRM := { xCell := 0, coeffsCell := 1, scalerCell := 2 }

/-- Witness for C9 on the concrete heap `storeC9`. -/
theorem retain_snapshot_deepcopy_independent_witness :
    (retainSnapshot storeC9 modelC9 3).1.read
        ((retainSnapshot storeC9 modelC9 3).2.1.xCell) = some PyVal.vNone ∧
    (retainSnapshot storeC9 modelC9 3).1.read
        ((retainSnapshot storeC9 modelC9 3).2.1.coeffsCell) =
      storeC9.read modelC9.coeffsCell :=
  ⟨(retain_snapshot_deepcopy_independent storeC9 modelC9 3 (by decide) (by decide)
      (by decide) (by decide) (by decide)).2.1,
   (retain_snapshot_deepcopy_independent storeC9 modelC9 3 (by decide) (by decide)
      (by decide) (by decide) (by decide)).2.2.1⟩
